import Mathlib

/-!
Shallow embedding of `router/pkg/logging/observer.go` (package `logging`):
a structured-logging facade over go.uber.org/zap.  Pure functions of the
source are translated to Lean functions; OS interaction (hostname, pid,
file open) is passed in explicitly as an environment; level constants of
the zap library referenced by the source are given by their documented
numeric values.
-/

namespace Logging

/-! ### zap level constants

Numeric values of `go.uber.org/zap/zapcore.Level` as referenced by the
source (`zap.DebugLevel`, `zap.InfoLevel`, `zap.WarnLevel`,
`zap.ErrorLevel`, `zap.PanicLevel`, `zap.FatalLevel`): `int8` constants
with Debug = -1, Info = 0, Warn = 1, Error = 2, DPanic = 3, Panic = 4,
Fatal = 5. -/

def DebugLevel : ℤ := -1

def InfoLevel : ℤ := 0

def WarnLevel : ℤ := 1

def ErrorLevel : ℤ := 2

def PanicLevel : ℤ := 4

def FatalLevel : ℤ := 5

/-! ### Level parsing (`ZapLogLevelFromString`) -/

/-- One character of Go `strings.ToUpper`: maps an ASCII lowercase letter
to its uppercase form and leaves every other character unchanged (the
Unicode special-case foldings of Go's `unicode.ToUpper` do not concern
the ASCII level names compared against). -/
def goToUpperChar (c : Char) : Char :=
  if 'a' ≤ c ∧ c ≤ 'z' then Char.ofNat (c.toNat - 32) else c

/-- Go `strings.ToUpper`, applied character-wise. -/
def goToUpper (s : String) : String :=
  String.mk (s.data.map goToUpperChar)

/-- Source function `ZapLogLevelFromString`: switches on
`strings.ToUpper(logLevel)` over the six recognized names; on the default
branch returns `-1` together with the error
`fmt.Errorf("unknown log level: %s", logLevel)`.  The Go pair
`(zapcore.Level, error)` is embedded as `ℤ × Option String` (the error
message, `none` for a nil error). -/
def ZapLogLevelFromString (logLevel : String) : ℤ × Option String :=
  let u := goToUpper logLevel
  if u = "DEBUG" then (DebugLevel, none)
  else if u = "INFO" then (InfoLevel, none)
  else if u = "WARNING" then (WarnLevel, none)
  else if u = "ERROR" then (ErrorLevel, none)
  else if u = "FATAL" then (FatalLevel, none)
  else if u = "PANIC" then (PanicLevel, none)
  else (-1, some ("unknown log level: " ++ logLevel))

/-- The six recognized (uppercased) level names, in the spec's listing
order, paired with the level each maps to. -/
def recognizedLevels : List (String × ℤ) :=
  [("DEBUG", DebugLevel), ("INFO", InfoLevel), ("WARNING", WarnLevel),
   ("ERROR", ErrorLevel), ("FATAL", FatalLevel), ("PANIC", PanicLevel)]

/-! ### Logger construction (`New` and the sink builders)

The OS interactions of the source — `os.Hostname()`, `os.Getpid()` and
`zap.Open(file)` — are passed in as an explicit environment.  A zap
`zapcore.Core` is embedded as its observable configuration: encoder,
destination, minimum level, and the context fields attached via
`Core.With` (zap prepends a core's context fields to every record the
core emits). -/

/-- Encoder variant chosen for a sink: `zapcore.NewJSONEncoder` or
`zapcore.NewConsoleEncoder`. -/
inductive Encoder
  | json
  | console
deriving DecidableEq

/-- Write destination of a sink: `os.Stdout` or an opened file. -/
inductive Dest
  | stdout
  | file (path : String)
deriving DecidableEq

/-- A structured field value (`zapcore.Field` carries a string or an
int64 in the uses the source makes of it). -/
inductive FieldValue
  | str (s : String)
  | int (i : ℤ)
deriving DecidableEq

/-- A `zapcore.Field`: a key together with its value. -/
structure Field where
  key : String
  value : FieldValue
deriving DecidableEq

/-- Embedding of a `zapcore.Core`: encoder, destination, level
threshold, and the context fields attached with `Core.With`. -/
structure Core where
  encoder : Encoder
  dest : Dest
  level : ℤ
  context : List Field
deriving DecidableEq

/-- Outcome of `zap.Open(file)`: success, or an error together with
whether a (partial) closer function was also returned. -/
inductive OpenOutcome
  | ok
  | err (closerPresent : Bool) (msg : String)
deriving DecidableEq

/-- The OS environment the source reads: `os.Hostname()` (`none` models
a failed lookup), `os.Getpid()`, and the outcome `zap.Open` would give
for each path. -/
structure Env where
  hostname : Option String
  pid : ℤ
  openResult : String → OpenOutcome

/-- Source function `attachBaseFields`: looks up the hostname
(substituting `"unknown"` on lookup failure) and wraps the core with
`Core.With` adding the `hostname` and `pid` fields to its context. -/
def attachBaseFields (env : Env) (core : Core) : Core :=
  let host := match env.hostname with
    | some h => h
    | none => "unknown"
  { core with
      context := core.context ++
        [⟨"hostname", .str host⟩, ⟨"pid", .int env.pid⟩] }

/-- Result of building a core (or a whole logger): either the
fatal-exit path — `log.Fatalf` terminates the process after printing
the message, so no core/logger value exists — recording whether the
partially-opened handle's closer was invoked first, or success. -/
inductive CoreResult
  | fatal (closerCalled : Bool) (msg : String)
  | ok (core : Core)

/-- Source function `newZapFileLogger`: on `zap.Open` failure calls the
closer when one was returned and then `log.Fatalf("could not open log
file: %s\n", err)`; on success builds a core with the JSON encoder, the
opened file as destination and the given level, and attaches the base
fields. -/
def newZapFileLogger (env : Env) (file : String) (level : ℤ) : CoreResult :=
  match env.openResult file with
  | .err closerPresent msg =>
      .fatal closerPresent ("could not open log file: " ++ msg ++ "\n")
  | .ok =>
      .ok (attachBaseFields env
        { encoder := .json, dest := .file file, level := level, context := [] })

/-- Source function `newZapOutputLogger`: console encoder when
`prettyLogging`, JSON encoder otherwise; destination standard output;
base fields attached exactly when not pretty. -/
def newZapOutputLogger (env : Env) (prettyLogging : Bool) (level : ℤ) : Core :=
  let encoder := if prettyLogging then Encoder.console else Encoder.json
  let baseCore : Core :=
    { encoder := encoder, dest := .stdout, level := level, context := [] }
  if ¬ prettyLogging then attachBaseFields env baseCore else baseCore

/-- A built `zap.Logger`: the tee of its cores plus the global options
the source sets — `zap.AddCaller()` when `debug`, and always
`zap.AddStacktrace(zap.ErrorLevel)`, recorded as the threshold at or
above which a stack trace is captured. -/
structure Logger where
  cores : List Core
  addCaller : Bool
  stacktraceLevel : Option ℤ
deriving DecidableEq

/-- Source function `newZapLogger`: options are `AddCaller` iff
`debug`, plus unconditionally `AddStacktrace(zap.ErrorLevel)`; the
cores are combined with `zapcore.NewTee`. -/
def newZapLogger (debug : Bool) (cores : List Core) : Logger :=
  { cores := cores, addCaller := debug, stacktraceLevel := some ErrorLevel }

/-- Result of `New`: the fatal-exit path of the file-sink builder
propagates (the process terminates inside `newZapFileLogger`, so `New`
never returns), or the built logger. -/
inductive BuildResult
  | fatal (closerCalled : Bool) (msg : String)
  | ok (lg : Logger)
deriving DecidableEq

/-- Source function `New`: starts the core list with the console core,
appends the file core when `fileOutput` is non-empty (going fatal if
the file cannot be opened), and combines them with `newZapLogger`. -/
def New (env : Env) (prettyLogging debug : Bool) (levelOutput : ℤ)
    (fileOutput : String) (fileLevel : ℤ) : BuildResult :=
  let consoleCore := newZapOutputLogger env prettyLogging levelOutput
  if fileOutput ≠ "" then
    match newZapFileLogger env fileOutput fileLevel with
    | .fatal c m => .fatal c m
    | .ok fileCore => .ok (newZapLogger debug [consoleCore, fileCore])
  else
    .ok (newZapLogger debug [consoleCore])

/-- Number of sinks of a successfully built logger. -/
def BuildResult.numSinks : BuildResult → Option ℕ
  | .ok lg => some lg.cores.length
  | .fatal _ _ => none

/-- The keys of a field list. -/
def fieldKeys (fs : List Field) : List String := fs.map Field.key

/-- The fields a core emits for a record carrying `recFields`: zap's
`Core.With` semantics put the core's context fields before the
record's own fields. -/
def Core.emitFields (c : Core) (recFields : List Field) : List Field :=
  c.context ++ recFields

/-- A core carries the Base Fields when both `hostname` and `pid` occur
among its context field keys. -/
def hasBaseFields (c : Core) : Prop :=
  "hostname" ∈ fieldKeys c.context ∧ "pid" ∈ fieldKeys c.context

/-- Whether a record emitted at severity `sev` through the logger
carries a stack trace: zap's `AddStacktrace(t)` captures a (non-empty)
stack for every entry at level `t` or above. -/
def Logger.hasStacktraceAt (lg : Logger) (sev : ℤ) : Bool :=
  match lg.stacktraceLevel with
  | some t => decide (t ≤ sev)
  | none => false

/-! ### Encoders (`ZapJsonEncoder`, `zapConsoleEncoder`)

`ZapJsonEncoder` overrides `EncodeTime` to
`int64(math.Trunc(float64(t.UnixNano()) / float64(time.Millisecond)))`.
The two float64 steps — the `int64 → float64` conversion and the
division — are embedded exactly per IEEE-754 binary64 (53-bit
significand, round to nearest, ties to even), using only integer
arithmetic. -/

/-- Round-half-even of the quotient `a / b` (`b > 0`). -/
def rheDiv (a b : ℕ) : ℕ :=
  let q := a / b
  let r := a % b
  if 2 * r < b then q
  else if b < 2 * r then q + 1
  else if q % 2 = 0 then q else q + 1

/-- Fueled base-2 logarithm (enough fuel for any `int64`-sized input). -/
def log2F : ℕ → ℕ → ℕ
  | 0, _ => 0
  | fuel + 1, n => if 2 ≤ n then log2F fuel (n / 2) + 1 else 0

/-- Floor of log base 2 for `n ≥ 1` (0 at 0), with fuel 64: covers `int64`. -/
def natLog2 (n : ℕ) : ℕ := log2F 64 n

/-- The IEEE-754 binary64 value nearest to the natural `n` (ties to
even), i.e. Go's `float64(nanos)` conversion for non-negative `nanos`:
exact below `2^53`, otherwise rounded to the 53-bit significand at the
binade's unit in the last place. -/
def roundFloat64Nat (n : ℕ) : ℕ :=
  if n < 2 ^ 53 then n
  else
    let e := natLog2 n - 52
    rheDiv n (2 ^ e) * 2 ^ e

/-- The millisecond timestamp the source's JSON `EncodeTime` emits for
a non-negative `nanos = t.UnixNano()`:
`int64(math.Trunc(float64(nanos) / float64(time.Millisecond)))`.
First `nanos` is converted to binary64 (`roundFloat64Nat`); the
division by `10^6` is then correctly rounded to binary64 at the unit in
the last place of the quotient's binade (`2^(k-52)` for a quotient in
`[2^k, 2^(k+1))`), and `math.Trunc` floors the non-negative result. -/
def jsonEncoderMillis (nanos : ℕ) : ℕ :=
  let x := roundFloat64Nat nanos
  let m := x / 1000000
  let k := natLog2 m
  if 52 ≤ k then
    rheDiv x (1000000 * 2 ^ (k - 52)) * 2 ^ (k - 52)
  else
    rheDiv (x * 2 ^ (52 - k)) 1000000 / 2 ^ (52 - k)

/-- Observable configuration of the source's `ZapJsonEncoder`: the
timestamp key set by `zapBaseEncoderConfig` (`TimeKey = "time"`) and
the timestamp encoding. -/
structure JsonEncoderConfig where
  timeKey : String
  encodeTime : ℕ → ℕ

/-- Source function `ZapJsonEncoder`: base config with
`TimeKey = "time"`, `EncodeTime` emitting `jsonEncoderMillis`. -/
def ZapJsonEncoder : JsonEncoderConfig :=
  { timeKey := "time", encodeTime := jsonEncoderMillis }

/-- Zero-padded two-digit rendering of a number below 100, as the Go
reference-layout components `15`, `04`, `05` produce. -/
def pad2 (n : ℕ) : String :=
  if n < 10 then "0" ++ toString n else toString n

/-- Go `time.Format` with the source's layout `"15:04:05 PM"`, at wall
clock `h:m:s`: `15` is the zero-padded 24-hour hour, `04` and `05` the
minute and second, and `PM` the upper-case AM/PM marker (AM for hours
0–11, PM for 12–23). -/
def goLayoutTime (h m s : ℕ) : String :=
  pad2 h ++ ":" ++ pad2 m ++ ":" ++ pad2 s ++ " " ++
    (if h < 12 then "AM" else "PM")

/-- Modelled from the spec's words, for comparison: `HH:MM:SS AM/PM` on
a 12-hour clock (hours 13–23 shown as 01–11, hours 0 and 12 as 12). -/
def twelveHourTime (h m s : ℕ) : String :=
  let h12 := if h % 12 = 0 then 12 else h % 12
  pad2 h12 ++ ":" ++ pad2 m ++ ":" ++ pad2 s ++ " " ++
    (if h < 12 then "AM" else "PM")

/-- Observable configuration of the source's `zapConsoleEncoder`: the
field separator and the timestamp rendering. -/
structure ConsoleEncoderConfig where
  separator : String
  encodeTime : ℕ → ℕ → ℕ → String

/-- Source function `zapConsoleEncoder`: `ConsoleSeparator = " "` and
`EncodeTime = zapcore.TimeEncoderOfLayout("15:04:05 PM")`. -/
def zapConsoleEncoder : ConsoleEncoderConfig :=
  { separator := " ", encodeTime := goLayoutTime }

/-- A concrete environment whose `zap.Open` always fails with a partial
closer, for witnesses. -/
def failEnv : Env :=
  { hostname := some "host-a", pid := 41,
    openResult := fun _ => .err true "permission denied" }

/-- A concrete environment whose `zap.Open` always succeeds, for
witnesses. -/
def okEnv : Env :=
  { hostname := none, pid := 7, openResult := fun _ => .ok }

end Logging

open Logging

/-- C1.  An input whose Go-uppercasing equals one of the six recognized
names parses to the corresponding level with a nil error; any other
input produces an error whose message contains the exact input string
(as an infix of its character list). -/
theorem zapLogLevelFromString_spec (s : String) :
    (∀ p ∈ recognizedLevels, goToUpper s = p.1 →
      ZapLogLevelFromString s = (p.2, none)) ∧
    ((∀ p ∈ recognizedLevels, goToUpper s ≠ p.1) →
      ∃ msg, (ZapLogLevelFromString s).2 = some msg ∧ s.data <:+: msg.data) := by
  constructor
  · intro p hp hs
    simp only [recognizedLevels, List.mem_cons, List.not_mem_nil, or_false] at hp
    rcases hp with h | h | h | h | h | h <;> subst h <;>
      simp [ZapLogLevelFromString, hs]
  · intro hne
    have h1 := hne ("DEBUG", DebugLevel) (by simp [recognizedLevels])
    have h2 := hne ("INFO", InfoLevel) (by simp [recognizedLevels])
    have h3 := hne ("WARNING", WarnLevel) (by simp [recognizedLevels])
    have h4 := hne ("ERROR", ErrorLevel) (by simp [recognizedLevels])
    have h5 := hne ("FATAL", FatalLevel) (by simp [recognizedLevels])
    have h6 := hne ("PANIC", PanicLevel) (by simp [recognizedLevels])
    refine ⟨"unknown log level: " ++ s, ?_, ?_⟩
    · simp [ZapLogLevelFromString, h1, h2, h3, h4, h5, h6]
    · exact ⟨("unknown log level: " : String).data, [], by simp⟩

/-- C1 witness: the theorem applied at the concrete inputs `"Debug"`
(a case variant of DEBUG) and `"bogus"` (unrecognized). -/
theorem zapLogLevelFromString_spec_witness :
    ZapLogLevelFromString "Debug" = (DebugLevel, none) ∧
    ∃ msg, (ZapLogLevelFromString "bogus").2 = some msg ∧
      ("bogus" : String).data <:+: msg.data := by
  constructor
  · exact (zapLogLevelFromString_spec "Debug").1 ("DEBUG", DebugLevel)
      (by simp [recognizedLevels]) (by decide)
  · exact (zapLogLevelFromString_spec "bogus").2 (by decide)

/-- C9 counterexample: the parser maps FATAL to 5 and PANIC to 4, so
FATAL's level is not strictly smaller than PANIC's — the claimed order
DEBUG < INFO < WARNING < ERROR < FATAL < PANIC fails at its last link. -/
theorem level_order_claim_cex :
    ¬ ((ZapLogLevelFromString "FATAL").1 < (ZapLogLevelFromString "PANIC").1) := by
  decide

/-- C9 amended: the severity levels returned by the parser are ordered
DEBUG < INFO < WARNING < ERROR < PANIC < FATAL. -/
theorem level_order_amended :
    (ZapLogLevelFromString "DEBUG").1 < (ZapLogLevelFromString "INFO").1 ∧
    (ZapLogLevelFromString "INFO").1 < (ZapLogLevelFromString "WARNING").1 ∧
    (ZapLogLevelFromString "WARNING").1 < (ZapLogLevelFromString "ERROR").1 ∧
    (ZapLogLevelFromString "ERROR").1 < (ZapLogLevelFromString "PANIC").1 ∧
    (ZapLogLevelFromString "PANIC").1 < (ZapLogLevelFromString "FATAL").1 := by
  decide

/-- C10.  On any unrecognized input the parser returns the level `-1`
alongside the error, and `-1` is numerically equal to `DebugLevel`, the
smallest (most verbose) of the six recognized levels. -/
theorem zapLogLevelFromString_error_value (s : String)
    (h : (ZapLogLevelFromString s).2.isSome) :
    (ZapLogLevelFromString s).1 = -1 ∧ (-1 : ℤ) = DebugLevel ∧
    ∀ p ∈ recognizedLevels, DebugLevel ≤ p.2 := by
  refine ⟨?_, rfl, by decide⟩
  simp only [ZapLogLevelFromString] at h ⊢
  split_ifs at h ⊢ <;> simp_all

/-- C10 witness: the theorem applied at the concrete unrecognized input
`"verbose"`. -/
theorem zapLogLevelFromString_error_value_witness :
    (ZapLogLevelFromString "verbose").1 = -1 ∧ (-1 : ℤ) = DebugLevel ∧
    ∀ p ∈ recognizedLevels, DebugLevel ≤ p.2 :=
  zapLogLevelFromString_error_value "verbose" (by decide)

/-- C2.  When `zap.Open` fails for the requested file, `New` (through
`newZapFileLogger`) ends on the fatal path: the error message is
reported with the offending error, the partially-opened handle's closer
is invoked exactly when one exists (best effort), and no logger value
is produced (the `fatal` constructor carries none — `log.Fatalf`
terminates the process). -/
theorem new_fatal_on_open_failure (env : Env) (pretty debug : Bool)
    (lo fl : ℤ) (file : String) (cp : Bool) (msg : String)
    (hfile : file ≠ "") (hopen : env.openResult file = .err cp msg) :
    New env pretty debug lo file fl =
      .fatal cp ("could not open log file: " ++ msg ++ "\n") := by
  simp [New, newZapFileLogger, hfile, hopen]

/-- C2 witness: the theorem applied to a concrete environment whose
open of `"/var/log/out"` fails with a partial closer. -/
theorem new_fatal_on_open_failure_witness :
    New failEnv false false 0 "/var/log/out" 0 =
      .fatal true ("could not open log file: " ++ "permission denied" ++ "\n") :=
  new_fatal_on_open_failure failEnv false false 0 0 "/var/log/out" true
    "permission denied" (by decide) rfl

/-- C3.  `New` builds a logger with exactly one sink when
`fileOutput = ""`, and with exactly two sinks when `fileOutput` is
non-empty (and the file opens, so that a logger is built at all). -/
theorem new_sink_count (env : Env) (pretty debug : Bool) (lo fl : ℤ)
    (file : String) :
    (file = "" → (New env pretty debug lo file fl).numSinks = some 1) ∧
    (file ≠ "" → env.openResult file = .ok →
      (New env pretty debug lo file fl).numSinks = some 2) := by
  constructor
  · intro h
    simp [New, h, newZapLogger, BuildResult.numSinks]
  · intro h hopen
    simp [New, h, newZapFileLogger, hopen, newZapLogger, BuildResult.numSinks]

/-- C3 witness: the theorem applied to a concrete environment, at the
empty path and at `"/log"`. -/
theorem new_sink_count_witness :
    (New okEnv true true 0 "" 1).numSinks = some 1 ∧
    (New okEnv true true 0 "/log" 1).numSinks = some 2 :=
  ⟨(new_sink_count okEnv true true 0 1 "").1 rfl,
   (new_sink_count okEnv true true 0 1 "/log").2 (by decide) rfl⟩

/-- C5.  The console sink's encoder is JSON exactly when
`prettyLogging` is false; the Base Fields (`hostname`, `pid`) are in
its context exactly when the encoder is JSON, hence on a non-pretty
sink every emitted record carries them, while a pretty sink's context
is empty, so it adds them to no record. -/
theorem console_sink_base_fields (env : Env) (pretty : Bool) (lvl : ℤ) :
    ((newZapOutputLogger env pretty lvl).encoder = .json ↔ pretty = false) ∧
    (hasBaseFields (newZapOutputLogger env pretty lvl) ↔ pretty = false) ∧
    (pretty = false → ∀ recFields,
      "hostname" ∈ fieldKeys ((newZapOutputLogger env pretty lvl).emitFields recFields) ∧
      "pid" ∈ fieldKeys ((newZapOutputLogger env pretty lvl).emitFields recFields)) ∧
    (pretty = true → (newZapOutputLogger env pretty lvl).context = []) := by
  cases pretty <;>
    simp [newZapOutputLogger, attachBaseFields, hasBaseFields, fieldKeys,
      Core.emitFields]

/-- C5 witness: the theorem applied to a concrete environment for both
values of `prettyLogging`. -/
theorem console_sink_base_fields_witness :
    hasBaseFields (newZapOutputLogger okEnv false 0) ∧
    (newZapOutputLogger okEnv true 0).context = [] :=
  ⟨(console_sink_base_fields okEnv false 0).2.1.mpr rfl,
   (console_sink_base_fields okEnv true 0).2.2.2 rfl⟩

/-- C6.  For every non-empty file path that opens successfully and
every value of `prettyLogging`, the file sink `New` appends is built
with the JSON encoder at `fileLevel` and has the Base Fields
attached. -/
theorem file_sink_json_base_fields (env : Env) (pretty debug : Bool)
    (lo fl : ℤ) (file : String)
    (hfile : file ≠ "") (hopen : env.openResult file = .ok) :
    ∃ lg c0 c, New env pretty debug lo file fl = .ok lg ∧
      lg.cores = [c0, c] ∧
      c.encoder = .json ∧ c.level = fl ∧ hasBaseFields c := by
  refine ⟨newZapLogger debug [newZapOutputLogger env pretty lo,
      attachBaseFields env
        { encoder := .json, dest := .file file, level := fl, context := [] }],
    newZapOutputLogger env pretty lo,
    attachBaseFields env
      { encoder := .json, dest := .file file, level := fl, context := [] },
    ?_, rfl, ?_, ?_, ?_⟩
  · simp [New, newZapFileLogger, hfile, hopen, newZapLogger]
  · simp [attachBaseFields]
  · simp [attachBaseFields]
  · simp [attachBaseFields, hasBaseFields, fieldKeys]

/-- C6 witness: the theorem applied to a concrete environment, the path
`"/log"` and both encodings requested by `prettyLogging = true`. -/
theorem file_sink_json_base_fields_witness :
    ∃ lg c0 c, New okEnv true false 0 "/log" 3 = .ok lg ∧
      lg.cores = [c0, c] ∧
      c.encoder = .json ∧ c.level = 3 ∧ hasBaseFields c :=
  file_sink_json_base_fields okEnv true false 0 3 "/log" (by decide) rfl

/-- C7.  Every logger built by `New`, for any `debug` flag, carries a
stack trace on a record exactly when its severity is at least
`ErrorLevel` (zap's `AddStacktrace(zap.ErrorLevel)` is set
unconditionally). -/
theorem stacktrace_at_error_level (env : Env) (pretty debug : Bool)
    (lo fl : ℤ) (file : String) (lg : Logger)
    (h : New env pretty debug lo file fl = .ok lg) (sev : ℤ) :
    lg.hasStacktraceAt sev = true ↔ ErrorLevel ≤ sev := by
  have hst : lg.stacktraceLevel = some ErrorLevel := by
    unfold New at h
    split at h
    · cases hm : newZapFileLogger env file fl <;> rw [hm] at h
      · cases h
      · cases h
        rfl
    · cases h
      rfl
  rw [Logger.hasStacktraceAt, hst]
  exact decide_eq_true_iff

/-- C7 witness: the theorem applied to a concrete logger built by `New`
with `debug = true`, at severities 2 (ERROR) and 4 (PANIC). -/
theorem stacktrace_at_error_level_witness :
    ((newZapLogger true [newZapOutputLogger okEnv false 0]).hasStacktraceAt 2
        = true ↔ ErrorLevel ≤ (2 : ℤ)) ∧
    ((newZapLogger true [newZapOutputLogger okEnv false 0]).hasStacktraceAt 4
        = true ↔ ErrorLevel ≤ (4 : ℤ)) :=
  ⟨stacktrace_at_error_level okEnv false true 0 0 "" _ rfl 2,
   stacktrace_at_error_level okEnv false true 0 0 "" _ rfl 4⟩

/-- C4 evaluation at the failing input.  The JSON encoder does key the
timestamp `"time"`, but the value is not always
`floor(t_nanos / 1_000_000)`: the `int64 → float64` conversion rounds
`nanos` to 53 significant bits before the division, and for
`t_nanos = 1759999999999999999` (2025-10-09, where the conversion's
unit in the last place is 256 ns) the encoder emits `1760000000000`
while the truncated millisecond value is `1759999999999`. -/
theorem json_time_millis_not_floor :
    ZapJsonEncoder.timeKey = "time" ∧
    ZapJsonEncoder.encodeTime 1759999999999999999 = 1760000000000 ∧
    1759999999999999999 / 1000000 = 1759999999999 := by
  refine ⟨rfl, by decide, by decide⟩

/-- C8 evaluation at the failing input.  The console encoder does use a
single-space field separator, but its Go time layout `"15:04:05 PM"`
renders the 24-hour hour (`15`) followed by an AM/PM marker, not a
12-hour clock: at 13:00:00 it produces `"13:00:00 PM"` where a 12-hour
clock reads `"01:00:00 PM"`. -/
theorem console_time_layout_not_twelve_hour :
    zapConsoleEncoder.separator = " " ∧
    zapConsoleEncoder.encodeTime 13 0 0 = "13:00:00 PM" ∧
    twelveHourTime 13 0 0 = "01:00:00 PM" ∧
    zapConsoleEncoder.encodeTime 13 0 0 ≠ twelveHourTime 13 0 0 := by
  refine ⟨rfl, by decide, by decide, by decide⟩
